import Mathlib

/-!
Shallow embedding of the Telegram → Matrix conversation-router scripts
(`scripts/telegram-department-router.py`, `scripts/telegram-space-integration.py`,
`scripts/telegram-department-bot.py`).

The Python handlers are modelled as pure state-transition functions.  Every
outbound side effect (Matrix HTTP request, Telegram reply/edit) is recorded in
an ordered `Effect` trace; the remote Matrix server is modelled by a
`MatrixServer` record that provides the HTTP status each kind of call would
receive and a counter from which freshly created room ids are drawn.  String
formatting follows the source f-strings (emoji and apostrophes are dropped
from literal message text; this never matters to any property proved below).
`uuid.uuid4()` is modelled as a fresh-identifier generator (a counter),
`datetime.now()` as a logical clock.
-/

namespace MatrixChat

/-- Python truthiness helper for `x or y` on optional strings: `None` and the
empty string both fall through to the default. -/
def str_or (s : Option String) (d : String) : String :=
  match s with
  | some v => if v = "" then d else v
  | none => d

/-- Executable model of `str.startswith(p)` (kernel-reducible, unlike
`String.startsWith`). -/
def str_starts_with (s p : String) : Bool := p.data.isPrefixOf s.data

/-- Fueled worker for `str_replace`; the fuel is the length of the subject so
the recursion is structural. -/
def replace_loop (pat rep : List Char) : Nat → List Char → List Char
  | _, [] => []
  | 0, l => l
  | fuel+1, c :: rest =>
    if pat.isPrefixOf (c :: rest) then
      rep ++ replace_loop pat rep fuel ((c :: rest).drop pat.length)
    else
      c :: replace_loop pat rep fuel rest

/-- Executable model of Python `s.replace(pat, rep)` for non-empty patterns
(kernel-reducible, unlike `String.replace`). -/
def str_replace (s pat rep : String) : String :=
  String.mk (replace_loop pat.data rep.data s.data.length s.data)

/-- A Telegram sender, the fields of `telethon.types.User` / `telegram.User`
the scripts read.  `none` models Python `None`. -/
structure TgUser where
  id : Nat
  firstName : Option String
  username : Option String
  lastName : Option String
deriving Repr, DecidableEq

/-- The `matrix:` block of one department's configuration. -/
structure MatrixCfg where
  homeserver : String
  access_token : String
  bot_user_id : String
  support_users : List String
deriving Repr, DecidableEq

/-- One entry of `config['departments']`. -/
structure Department where
  id : String
  name : String
  icon : String
  description : String
  matrix : MatrixCfg
deriving Repr, DecidableEq

/-- The `m.room.power_levels` content built by
`telegram-department-bot.py` `create_matrix_room`. -/
structure PowerLevels where
  users : List (String × Nat)
  users_default : Nat
  events_default : Nat
  state_default : Nat
  invite : Nat
  kick : Nat
  ban : Nat
  redact : Nat
deriving Repr, DecidableEq

/-- The JSON payload of a `createRoom` request, one optional field per key any
of the three scripts ever sets. -/
structure RoomData where
  name : String
  topic : String
  preset : String
  visibility : Option String
  is_direct : Option Bool
  federate : Option Bool
  creation_type : Option String
  power_levels : Option PowerLevels
  dept_conversation_id : Option String
deriving Repr, DecidableEq

/-- One outbound side effect: a Matrix HTTP request or a Telegram response. -/
inductive Effect where
  | createRoom (homeserver : String) (data : RoomData)
  | inviteCall (homeserver room_id user_id : String)
  | sendMessage (homeserver room_id body : String)
  | spaceChild (homeserver parent_id child_id : String)
  | respond (text : String)
  | editMsg (text : String)
deriving Repr, DecidableEq

/-- The remote Matrix server: the HTTP status each call would get, plus the
counter fresh room ids are drawn from. -/
structure MatrixServer where
  next_room_id : Nat
  create_room_status : Nat
  invite_status : String → Nat
  send_status : Nat

/-- The room id the server hands back for the next successful `createRoom`. -/
def fresh_room_id (srv : MatrixServer) : String :=
  "!r" ++ toString srv.next_room_id ++ ":localhost"

/-- Advance the server's fresh-room counter after a successful creation. -/
def bump (srv : MatrixServer) : MatrixServer :=
  { srv with next_room_id := srv.next_room_id + 1 }

/-- A value of `self.user_sessions[user_id]` in the router and
space-integration scripts: either `{"state": "selecting_department"}` or
`{"state": "chatting", "department": d, "matrix_room_id": r}`. -/
inductive Session where
  | selectingDepartment : Session
  | chatting (department : Department) (matrix_room_id : String) : Session
deriving Repr, DecidableEq

/-- The `self.user_sessions` dict, keyed by Telegram user id. -/
abbrev RouterState := Nat → Option Session

/-- Dict assignment `self.user_sessions[user_id] = s`. -/
def set_session (st : RouterState) (uid : Nat) (s : Session) : RouterState :=
  fun k => if k = uid then some s else st k

/-- `get_department_by_id`: linear scan of `config['departments']`. -/
def get_department_by_id : List Department → String → Option Department
  | [], _ => none
  | d :: rest, dept_id => if d.id = dept_id then some d else get_department_by_id rest dept_id

/-- `telegram_user.first_name or telegram_user.username or f"User_[id]"`. -/
def user_display (u : TgUser) : String :=
  str_or u.firstName (str_or u.username ("User_" ++ toString u.id))

/-- `telegram_user.username or telegram_user.id`. -/
def user_handle (u : TgUser) : String :=
  str_or u.username (toString u.id)

/-- Count of `createRoom` requests in a trace. -/
def count_create_calls (l : List Effect) : Nat :=
  (l.filter fun e => match e with | Effect.createRoom _ _ => true | _ => false).length

/-- Count of `send/m.room.message` requests in a trace. -/
def count_send_calls (l : List Effect) : Nat :=
  (l.filter fun e => match e with | Effect.sendMessage _ _ _ => true | _ => false).length

/-- `true` exactly on effects that are Matrix HTTP requests (as opposed to
Telegram-side responses). -/
def is_matrix_call : Effect → Bool
  | Effect.createRoom _ _ => true
  | Effect.inviteCall _ _ _ => true
  | Effect.sendMessage _ _ _ => true
  | Effect.spaceChild _ _ _ => true
  | Effect.respond _ => false
  | Effect.editMsg _ => false

/-- `true` iff the effect is a message send targeted at room `rid`. -/
def sends_to_room (rid : String) : Effect → Bool
  | Effect.sendMessage _ r _ => r = rid
  | _ => false

namespace Router

/-- The room-creation payload built by `DepartmentRouter.create_matrix_room`:
`preset private_chat`, `is_direct`, `m.federate false`, no power levels. -/
def room_data (dept : Department) (u : TgUser) : RoomData :=
  { name := "Telegram Support - " ++ dept.name ++ " - " ++ user_display u
  , topic := "Support conversation from Telegram user " ++ user_handle u
  , preset := "private_chat"
  , visibility := none
  , is_direct := some true
  , federate := some false
  , creation_type := none
  , power_levels := none
  , dept_conversation_id := none }

/-- `DepartmentRouter.invite_to_room`: issues one invite request; the response
status is only logged, never returned. -/
def invite_to_room (dept : Department) (room_id user_id : String) : List Effect :=
  [Effect.inviteCall dept.matrix.homeserver room_id user_id]

/-- `DepartmentRouter.create_matrix_room`: POST `createRoom`; on 200 take the
returned room id and invite the department bot user; on failure return `none`. -/
def create_matrix_room (srv : MatrixServer) (dept : Department) (u : TgUser) :
    Option String × List Effect × MatrixServer :=
  let req := Effect.createRoom dept.matrix.homeserver (room_data dept u)
  if srv.create_room_status = 200 then
    let room_id := fresh_room_id srv
    (some room_id, req :: invite_to_room dept room_id dept.matrix.bot_user_id, bump srv)
  else
    (none, [req], srv)

/-- The `body` built by `DepartmentRouter.send_matrix_message`. -/
def relay_body (u : TgUser) (message : String) : String :=
  "[Telegram User: " ++ str_or u.firstName "Unknown" ++ " (@" ++ user_handle u ++ ")] "
    ++ message

/-- `DepartmentRouter.send_matrix_message`: issues the send request and returns
`None` on every path — the response status is inspected only for logging. -/
def send_matrix_message (srv : MatrixServer) (dept : Department)
    (room_id message : String) (u : TgUser) : Unit × List Effect :=
  ((), [Effect.sendMessage dept.matrix.homeserver room_id (relay_body u message)])

/-- The log line `send_matrix_message` emits, the only place the send status is
observed. -/
def send_log (srv : MatrixServer) (room_id : String) : String :=
  if srv.send_status = 200 then "Sent message to Matrix room " ++ room_id
  else "Failed to send Matrix message: " ++ toString srv.send_status

/-- The confirmation text sent on successful department selection. -/
def confirmation_message (dept : Department) : String :=
  "Connected to " ++ dept.icon ++ " " ++ dept.name ++ " " ++ dept.description
    ++ " You can now send your message and our team will respond shortly!"

/-- The synthetic introduction message relayed into a freshly created room. -/
def initial_message (u : TgUser) : String :=
  "New Telegram conversation started with user " ++ str_or u.firstName "Unknown"
    ++ " (@" ++ user_handle u ++ ")"

/-- Error reply when room creation failed. -/
def connect_failed_message : String :=
  "Sorry, I could not connect you to that department. Please try again later."

/-- `DepartmentRouter.select_department`: unconditionally create a room, then
on success overwrite the session with `chatting` and relay the introduction. -/
def select_department (st : RouterState) (srv : MatrixServer) (u : TgUser)
    (dept : Department) : RouterState × MatrixServer × List Effect :=
  let (room_id?, effs, srv') := create_matrix_room srv dept u
  match room_id? with
  | some room_id =>
    let st' := set_session st u.id (Session.chatting dept room_id)
    let (_, send_effs) := send_matrix_message srv' dept room_id (initial_message u) u
    (st', srv', effs ++ [Effect.respond (confirmation_message dept)] ++ send_effs)
  | none =>
    (st, srv', effs ++ [Effect.respond connect_failed_message])

/-- The greeting shown when department selection is (re)offered. -/
def welcome_message (u : TgUser) : String :=
  "Welcome " ++ str_or u.firstName "there"
    ++ "! I am your support bot. Please select the department you would like to contact:"

/-- `DepartmentRouter.handle_start_command`: with a known department id, select
it directly; otherwise show the selection keyboard and reset the session to
`selecting_department`. -/
def handle_start_command (cfg : List Department) (st : RouterState) (srv : MatrixServer)
    (u : TgUser) (department_id : Option String) : RouterState × MatrixServer × List Effect :=
  match department_id with
  | some did =>
    match get_department_by_id cfg did with
    | some dept => select_department st srv u dept
    | none =>
      (set_session st u.id Session.selectingDepartment, srv,
        [Effect.respond (welcome_message u)])
  | none =>
    (set_session st u.id Session.selectingDepartment, srv,
      [Effect.respond (welcome_message u)])

/-- Error edit for an unknown department id in a callback query. -/
def dept_not_found_message : String := "Department not found. Please try again."

/-- `DepartmentRouter.handle_callback_query`: parse `dept_<id>` callback data,
select the department if known, otherwise edit in an error. -/
def handle_callback_query (cfg : List Department) (st : RouterState) (srv : MatrixServer)
    (u : TgUser) (data : String) : RouterState × MatrixServer × List Effect :=
  if str_starts_with data "dept_" then
    let did := data.drop 5
    match get_department_by_id cfg did with
    | some dept =>
      let (st', srv', effs) := select_department st srv u dept
      (st', srv',
        Effect.editMsg ("Connecting you to " ++ dept.icon ++ " " ++ dept.name ++ "...") :: effs)
    | none => (st, srv, [Effect.editMsg dept_not_found_message])
  else
    (st, srv, [])

/-- `DepartmentRouter.handle_message`: forward to the stored room only in the
`chatting` state; otherwise restart department selection. -/
def handle_message (cfg : List Department) (st : RouterState) (srv : MatrixServer)
    (u : TgUser) (text : String) : RouterState × MatrixServer × List Effect :=
  match st u.id with
  | some (Session.chatting dept room_id) =>
    let (_, effs) := send_matrix_message srv dept room_id text u
    (st, srv, effs)
  | some Session.selectingDepartment => handle_start_command cfg st srv u none
  | none => handle_start_command cfg st srv u none

/-- The generic `NewMessage` handler registered in `setup_handlers`: skip any
command (text starting with `/`), else delegate to `handle_message`. -/
def message_handler (cfg : List Department) (st : RouterState) (srv : MatrixServer)
    (u : TgUser) (text : String) : RouterState × MatrixServer × List Effect :=
  if str_starts_with text "/" then (st, srv, [])
  else handle_message cfg st srv u text

end Router

namespace SpaceIntegration

/-- One entry of `spaces_config['spaces']['communicationChannels']` (the
`rootSpace` entry carries only `name`/`topic`; its `id` field is unused). -/
structure SpaceChannelCfg where
  id : String
  name : String
  topic : String
deriving Repr, DecidableEq

/-- The `spaces.yaml` configuration the integration reads. -/
structure SpacesConfig where
  root_space : SpaceChannelCfg
  communication_channels : List SpaceChannelCfg
deriving Repr, DecidableEq

/-- `self.space_cache`, keyed by channel key (only `"telegram"` is used). -/
abbrev SpaceCache := String → Option String

/-- Dict assignment `self.space_cache[k] = v`. -/
def cache_set (c : SpaceCache) (k v : String) : SpaceCache :=
  fun x => if x = k then some v else c x

/-- The `createRoom` payload for a space node (`type: m.space`). -/
def space_data (ch : SpaceChannelCfg) : RoomData :=
  { name := ch.name
  , topic := ch.topic
  , preset := "private_chat"
  , visibility := none
  , is_direct := none
  , federate := none
  , creation_type := some "m.space"
  , power_levels := none
  , dept_conversation_id := none }

/-- `ensure_root_space`: with the first department's admin credentials, POST a
space-typed `createRoom`; non-200 raises (modelled as `Except.error`). -/
def ensure_root_space (cfg : List Department) (spaces : SpacesConfig)
    (srv : MatrixServer) : Except String String × List Effect × MatrixServer :=
  match cfg with
  | [] => (Except.error "no departments configured", [], srv)
  | d :: _ =>
    let req := Effect.createRoom d.matrix.homeserver (space_data spaces.root_space)
    if srv.create_room_status = 200 then
      (Except.ok (fresh_room_id srv), [req], bump srv)
    else
      (Except.error "Failed to create root space", [req], srv)

/-- The loop in `ensure_telegram_space` scanning `communicationChannels` for
the entry with the given id. -/
def find_channel : List SpaceChannelCfg → String → Option SpaceChannelCfg
  | [], _ => none
  | ch :: rest, key => if ch.id = key then some ch else find_channel rest key

/-- `ensure_telegram_space`: create the Telegram channel space and link it to
the root via an `m.space.child` state event (link failure is only logged). -/
def ensure_telegram_space (cfg : List Department) (spaces : SpacesConfig)
    (srv : MatrixServer) (root_space_id : String) :
    Except String String × List Effect × MatrixServer :=
  match cfg with
  | [] => (Except.error "no departments configured", [], srv)
  | d :: _ =>
    match find_channel spaces.communication_channels "telegram" with
    | none => (Except.error "Telegram space configuration not found", [], srv)
    | some ch =>
      let req := Effect.createRoom d.matrix.homeserver (space_data ch)
      if srv.create_room_status = 200 then
        let space_id := fresh_room_id srv
        (Except.ok space_id,
          [req, Effect.spaceChild d.matrix.homeserver root_space_id space_id], bump srv)
      else
        (Except.error "Failed to create Telegram space", [req], srv)

/-- `ensure_telegram_space_hierarchy`: serve from `space_cache` when possible;
otherwise build root then channel space and cache the channel space id; any
failure propagates (re-raised) without touching the cache. -/
def ensure_telegram_space_hierarchy (cfg : List Department) (spaces : SpacesConfig)
    (cache : SpaceCache) (srv : MatrixServer) :
    Except String String × List Effect × SpaceCache × MatrixServer :=
  match cache "telegram" with
  | some sid => (Except.ok sid, [], cache, srv)
  | none =>
    let (root?, e1, srv1) := ensure_root_space cfg spaces srv
    match root? with
    | Except.error msg => (Except.error msg, e1, cache, srv1)
    | Except.ok root_space_id =>
      let (tg?, e2, srv2) := ensure_telegram_space cfg spaces srv1 root_space_id
      match tg? with
      | Except.error msg => (Except.error msg, e1 ++ e2, cache, srv2)
      | Except.ok telegram_space_id =>
        (Except.ok telegram_space_id, e1 ++ e2,
          cache_set cache "telegram" telegram_space_id, srv2)

/-- The loop body of `invite_support_users_to_room`: skip the bot user, issue
an invite for everyone else, and record a warning for each non-200 response.
Returns (requests issued, warnings logged). -/
def invite_loop (srv : MatrixServer) (hs room_id bot_id : String) :
    List String → List Effect × List String
  | [] => ([], [])
  | uid :: rest =>
    if uid = bot_id then invite_loop srv hs room_id bot_id rest
    else
      (Effect.inviteCall hs room_id uid :: (invite_loop srv hs room_id bot_id rest).1,
        if srv.invite_status uid = 200 then (invite_loop srv hs room_id bot_id rest).2
        else ("Failed to invite " ++ uid ++ " to room " ++ room_id)
          :: (invite_loop srv hs room_id bot_id rest).2)

/-- `invite_support_users_to_room` over `department['matrix']['support_users']`. -/
def invite_support_users_to_room (srv : MatrixServer) (room_id : String)
    (dept : Department) : List Effect × List String :=
  invite_loop srv dept.matrix.homeserver room_id dept.matrix.bot_user_id
    dept.matrix.support_users

/-- The conversation id used in room naming: `f"tg[telegram_user.id]"`. -/
def conversation_id (u : TgUser) : String := "tg" ++ toString u.id

/-- The room-creation payload built by `create_telegram_room_in_space`:
`preset private_chat`, `m.federate false`, no power levels. -/
def room_data (dept : Department) (u : TgUser) : RoomData :=
  { name := user_display u ++ " (Telegram) - " ++ dept.name ++ " #" ++ conversation_id u
  , topic := "Telegram conversation with " ++ user_handle u ++ " - " ++ dept.name
  , preset := "private_chat"
  , visibility := none
  , is_direct := none
  , federate := some false
  , creation_type := none
  , power_levels := none
  , dept_conversation_id := none }

/-- `create_telegram_room_in_space`: resolve the space hierarchy, create the
room, attach it to the Telegram space, invite the support users (warnings only
logged), and return the room id; any failure returns `none`. -/
def create_telegram_room_in_space (cfg : List Department) (spaces : SpacesConfig)
    (cache : SpaceCache) (srv : MatrixServer) (dept : Department) (u : TgUser) :
    Option String × List Effect × SpaceCache × MatrixServer :=
  let (space?, e0, cache1, srv1) := ensure_telegram_space_hierarchy cfg spaces cache srv
  match space? with
  | Except.error _ => (none, e0, cache1, srv1)
  | Except.ok telegram_space_id =>
    let req := Effect.createRoom dept.matrix.homeserver (room_data dept u)
    if srv1.create_room_status = 200 then
      let room_id := fresh_room_id srv1
      let srv2 := bump srv1
      let (inv_effs, _) := invite_support_users_to_room srv2 room_id dept
      (some room_id,
        e0 ++ [req, Effect.spaceChild dept.matrix.homeserver telegram_space_id room_id]
          ++ inv_effs,
        cache1, srv2)
    else
      (none, e0 ++ [req], cache1, srv1)

/-- The `body` built by `TelegramSpaceIntegration.send_matrix_message`. -/
def relay_body (u : TgUser) (message : String) : String :=
  "**" ++ str_or u.firstName "Unknown" ++ "** (@" ++ user_handle u ++ "): " ++ message

/-- `TelegramSpaceIntegration.send_matrix_message`: issues the send request and
returns `None` on every path. -/
def send_matrix_message (srv : MatrixServer) (dept : Department)
    (room_id message : String) (u : TgUser) : Unit × List Effect :=
  ((), [Effect.sendMessage dept.matrix.homeserver room_id (relay_body u message)])

/-- Confirmation text on successful selection (mentions the support space). -/
def confirmation_message (dept : Department) : String :=
  "Connected to " ++ dept.icon ++ " " ++ dept.name ++ " " ++ dept.description
    ++ " You can now send your message! Your conversation is organized in the Telegram Support Space"

/-- `TelegramSpaceIntegration.select_department`: unconditionally create a room
in the space, then on success overwrite the session and relay the introduction. -/
def select_department (cfg : List Department) (spaces : SpacesConfig)
    (st : RouterState) (cache : SpaceCache) (srv : MatrixServer) (u : TgUser)
    (dept : Department) : RouterState × SpaceCache × MatrixServer × List Effect :=
  let (room_id?, effs, cache1, srv1) := create_telegram_room_in_space cfg spaces cache srv dept u
  match room_id? with
  | some room_id =>
    let st' := set_session st u.id (Session.chatting dept room_id)
    let (_, send_effs) := send_matrix_message srv1 dept room_id (Router.initial_message u) u
    (st', cache1, srv1, effs ++ [Effect.respond (confirmation_message dept)] ++ send_effs)
  | none =>
    (st, cache1, srv1, effs ++ [Effect.respond Router.connect_failed_message])

/-- `TelegramSpaceIntegration.handle_start_command`. -/
def handle_start_command (cfg : List Department) (spaces : SpacesConfig)
    (st : RouterState) (cache : SpaceCache) (srv : MatrixServer) (u : TgUser)
    (department_id : Option String) : RouterState × SpaceCache × MatrixServer × List Effect :=
  match department_id with
  | some did =>
    match get_department_by_id cfg did with
    | some dept => select_department cfg spaces st cache srv u dept
    | none =>
      (set_session st u.id Session.selectingDepartment, cache, srv,
        [Effect.respond (Router.welcome_message u)])
  | none =>
    (set_session st u.id Session.selectingDepartment, cache, srv,
      [Effect.respond (Router.welcome_message u)])

/-- `TelegramSpaceIntegration.handle_message`: forward only when `chatting`. -/
def handle_message (cfg : List Department) (spaces : SpacesConfig)
    (st : RouterState) (cache : SpaceCache) (srv : MatrixServer) (u : TgUser)
    (text : String) : RouterState × SpaceCache × MatrixServer × List Effect :=
  match st u.id with
  | some (Session.chatting dept room_id) =>
    let (_, effs) := send_matrix_message srv dept room_id text u
    (st, cache, srv, effs)
  | some Session.selectingDepartment => handle_start_command cfg spaces st cache srv u none
  | none => handle_start_command cfg spaces st cache srv u none

/-- The generic `NewMessage` handler in `setup_handlers`: skip commands. -/
def message_handler (cfg : List Department) (spaces : SpacesConfig)
    (st : RouterState) (cache : SpaceCache) (srv : MatrixServer) (u : TgUser)
    (text : String) : RouterState × SpaceCache × MatrixServer × List Effect :=
  if str_starts_with text "/" then (st, cache, srv, [])
  else handle_message cfg spaces st cache srv u text

end SpaceIntegration

namespace DeptBot

/-- One entry of the hardcoded `self.departments` dict in
`telegram-department-bot.py`. -/
structure DeptInfo where
  name : String
  description : String
  matrix_users : List String
  space_name : String
deriving Repr, DecidableEq

/-- The hardcoded `self.departments` dict (emoji dropped from names). -/
def bot_departments : List (String × DeptInfo) :=
  [ ("technical",
      { name := "Technical Support"
      , description := "Technical issues, bugs, account problems"
      , matrix_users := ["@admin:localhost", "@support:localhost"]
      , space_name := "Telegram - Technical Support" })
  , ("commerce",
      { name := "Commerce/Sales"
      , description := "Product information, pricing, purchases"
      , matrix_users := ["@admin:localhost", "@support:localhost"]
      , space_name := "Telegram - Commerce" })
  , ("verification",
      { name := "Verification"
      , description := "Account verification, identity confirmation"
      , matrix_users := ["@admin:localhost", "@support:localhost"]
      , space_name := "Telegram - Verification" })
  , ("general",
      { name := "General Inquiry"
      , description := "General questions and support"
      , matrix_users := ["@admin:localhost", "@support:localhost"]
      , space_name := "Telegram - General" }) ]

/-- `dept_id in self.departments` / `self.departments[dept_id]`. -/
def dept_lookup : List (String × DeptInfo) → String → Option DeptInfo
  | [], _ => none
  | (k, v) :: rest, key => if k = key then some v else dept_lookup rest key

/-- A value of `self.user_sessions[user.id]` in the department bot. -/
structure BotSession where
  department : String
  department_name : String
  chat_id : Nat
  username : String
  first_name : String
  last_name : String
  started_at : Nat
  conversation_id : String
deriving Repr, DecidableEq

/-- The bot's mutable state: the session dict plus the fresh-uuid generator
(modelling `uuid.uuid4()`) and a logical clock (modelling `datetime.now()`). -/
structure BotState where
  user_sessions : Nat → Option BotSession
  next_uuid : Nat
  now : Nat

/-- The fresh identifier `str(uuid.uuid4())[:8]` drawn at generator state `n`. -/
def mk_uuid (n : Nat) : String := "u" ++ toString n

/-- The edit shown for an unknown department id. -/
def invalid_dept_message : String :=
  "Invalid department selection. Please try again with /start"

/-- `TelegramDepartmentBot.department_callback`: strip the `dept_` marker, and
for a known department overwrite the whole session record — including a newly
generated `conversation_id` — then edit in a success message; for an unknown
id edit in an error and change nothing. -/
def department_callback (st : BotState) (u : TgUser) (chat_id : Nat) (data : String) :
    BotState × List Effect :=
  let dept_id := str_replace data "dept_" ""
  match dept_lookup bot_departments dept_id with
  | none => (st, [Effect.editMsg invalid_dept_message])
  | some info =>
    let session : BotSession :=
      { department := dept_id
      , department_name := info.name
      , chat_id := chat_id
      , username := str_or u.username ("user_" ++ toString u.id)
      , first_name := str_or u.firstName "Unknown"
      , last_name := str_or u.lastName ""
      , started_at := st.now
      , conversation_id := mk_uuid st.next_uuid }
    ({ st with
        user_sessions := fun k => if k = u.id then some session else st.user_sessions k
      , next_uuid := st.next_uuid + 1
      , now := st.now + 1 },
      [Effect.editMsg ("Department Selected: " ++ info.name
        ++ " Please send your message now and our support team will respond shortly.")])

/-- The power-level content hardcoded in the bot's `create_matrix_room`. -/
def bot_power_levels : PowerLevels :=
  { users := [("@admin:localhost", 100), ("@support:localhost", 50)]
  , users_default := 0
  , events_default := 0
  , state_default := 50
  , invite := 50
  , kick := 50
  , ban := 50
  , redact := 50 }

/-- The room-creation payload built by the bot's `create_matrix_room`:
`visibility private`, `preset private_chat`, explicit power levels, and a
`fi.mau.telegram.department` state event carrying the conversation id. -/
def room_data (session : BotSession) (info : DeptInfo) : RoomData :=
  { name := session.username ++ " (Telegram) - " ++ info.name ++ " #" ++ session.conversation_id
  , topic := "Support conversation with " ++ session.first_name ++ " from Telegram - " ++ info.name
  , preset := "private_chat"
  , visibility := some "private"
  , is_direct := none
  , federate := none
  , creation_type := none
  , power_levels := some bot_power_levels
  , dept_conversation_id := some session.conversation_id }

/-- `TelegramDepartmentBot.create_matrix_room`: build the payload from the
stored session, POST it, and on 200 invite every configured Matrix user. -/
def create_matrix_room (homeserver : String) (st : BotState) (srv : MatrixServer)
    (telegram_user_id : Nat) (department_id : String) :
    Option String × List Effect × MatrixServer :=
  match st.user_sessions telegram_user_id, dept_lookup bot_departments department_id with
  | some session, some info =>
    let req := Effect.createRoom homeserver (room_data session info)
    if srv.create_room_status = 200 then
      let room_id := fresh_room_id srv
      (some room_id,
        req :: info.matrix_users.map (fun uid => Effect.inviteCall homeserver room_id uid),
        bump srv)
    else
      (none, [req], srv)
  | _, _ => (none, [], srv)

/-- The reply prompting a user without a session to run `/start`. -/
def start_prompt : String :=
  "Please start with /start to select a department and connect with our support team."

/-- `TelegramDepartmentBot.handle_message`: without a session, prompt for
`/start`; with one, only log — the mautrix bridge does the relaying, so the
bot itself never issues a Matrix send here. -/
def handle_message (st : BotState) (u : TgUser) (text : String) : List Effect :=
  match st.user_sessions u.id with
  | none => [Effect.respond start_prompt]
  | some _ => []

end DeptBot

/-! Concrete fixtures used by counterexamples and witnesses. -/

/-- A concrete department with three configured staff identities. -/
def dept_support : Department :=
  { id := "support"
  , name := "General Support"
  , icon := "S"
  , description := "General questions and support"
  , matrix := { homeserver := "http://localhost:8008"
              , access_token := "tok_support"
              , bot_user_id := "@bot:localhost"
              , support_users := ["@a:localhost", "@b:localhost", "@c:localhost"] } }

/-- A second concrete department, for department-switch scenarios. -/
def dept_billing : Department :=
  { id := "billing"
  , name := "Billing"
  , icon := "B"
  , description := "Invoices and payments"
  , matrix := { homeserver := "http://localhost:8008"
              , access_token := "tok_billing"
              , bot_user_id := "@bot:localhost"
              , support_users := ["@a:localhost"] } }

/-- A concrete Telegram user. -/
def user0 : TgUser :=
  { id := 7, firstName := some "Alice", username := some "alice", lastName := none }

/-- A healthy Matrix server: every call gets a 200. -/
def srv0 : MatrixServer :=
  { next_room_id := 0
  , create_room_status := 200
  , invite_status := fun _ => 200
  , send_status := 200 }

/-- A server whose `createRoom` calls fail. -/
def srv_create_fail : MatrixServer := { srv0 with create_room_status := 500 }

/-- A server whose message sends fail. -/
def srv_send_fail : MatrixServer := { srv0 with send_status := 500 }

/-- An empty session table. -/
def st_empty : RouterState := fun _ => none

/-- A concrete spaces configuration with a Telegram channel entry. -/
def spaces0 : SpaceIntegration.SpacesConfig :=
  { root_space := { id := "root", name := "CDL Support", topic := "All support" }
  , communication_channels :=
      [{ id := "telegram", name := "Telegram Support", topic := "Telegram conversations" }] }

/-- An empty space cache. -/
def cache_empty : SpaceIntegration.SpaceCache := fun _ => none

/-- A cache already holding the Telegram channel space. -/
def cache_tg : SpaceIntegration.SpaceCache :=
  fun k => if k = "telegram" then some "!space0:localhost" else none

/-- An empty department-bot state. -/
def bot_st0 : DeptBot.BotState :=
  { user_sessions := fun _ => none, next_uuid := 0, now := 0 }

/-! Helper lemmas about the invite loop. -/

/-- The requests issued by the invite loop do not depend on the server's
responses: the loop continues past failed invites. -/
theorem invite_loop_fst_const (srv srv' : MatrixServer) (hs rid bot : String)
    (l : List String) :
    (SpaceIntegration.invite_loop srv hs rid bot l).1
      = (SpaceIntegration.invite_loop srv' hs rid bot l).1 := by
  induction l with
  | nil => rfl
  | cons uid rest ih =>
    by_cases h : uid = bot <;> simp [SpaceIntegration.invite_loop, h, ih]

/-- Every configured identity other than the bot user gets an invite request. -/
theorem invite_loop_mem (srv : MatrixServer) (hs rid bot : String)
    (l : List String) (staff : String) (hmem : staff ∈ l) (hne : staff ≠ bot) :
    Effect.inviteCall hs rid staff ∈ (SpaceIntegration.invite_loop srv hs rid bot l).1 := by
  induction l with
  | nil => cases hmem
  | cons uid rest ih =>
    rcases List.mem_cons.mp hmem with h | h
    · subst h
      simp [SpaceIntegration.invite_loop, hne]
    · by_cases hb : uid = bot <;> simp [SpaceIntegration.invite_loop, hb, ih h]

/-- Every failed invite leaves a warning in the loop's log. -/
theorem invite_loop_warn_mem (srv : MatrixServer) (hs rid bot : String)
    (l : List String) (staff : String) (hmem : staff ∈ l) (hne : staff ≠ bot)
    (hfail : srv.invite_status staff ≠ 200) :
    ("Failed to invite " ++ staff ++ " to room " ++ rid)
      ∈ (SpaceIntegration.invite_loop srv hs rid bot l).2 := by
  induction l with
  | nil => cases hmem
  | cons uid rest ih =>
    rcases List.mem_cons.mp hmem with h | h
    · subst h
      simp [SpaceIntegration.invite_loop, hne, hfail]
    · by_cases hb : uid = bot
      · simpa [SpaceIntegration.invite_loop, hb] using ih h
      · by_cases hst : srv.invite_status uid = 200 <;>
          simp [SpaceIntegration.invite_loop, hb, hst, ih h]

/-- Every request the invite loop issues is an invite (in particular, it never
issues a room-creation request). -/
theorem invite_loop_all_invites (srv : MatrixServer) (hs rid bot : String)
    (l : List String) :
    ∀ e ∈ (SpaceIntegration.invite_loop srv hs rid bot l).1,
      ∃ x y z, e = Effect.inviteCall x y z := by
  induction l with
  | nil => intro e he; cases he
  | cons uid rest ih =>
    intro e he
    by_cases h : uid = bot
    · exact ih e (by simpa [SpaceIntegration.invite_loop, h] using he)
    · have he' : e = Effect.inviteCall hs rid uid
          ∨ e ∈ (SpaceIntegration.invite_loop srv hs rid bot rest).1 := by
        simpa [SpaceIntegration.invite_loop, h] using he
      rcases he' with h1 | h1
      · exact ⟨hs, rid, uid, h1⟩
      · exact ih e h1

/-! Claim C1: idempotent room provisioning. -/

/-- First department selection of the C1 scenario. -/
def c1_run1 : RouterState × MatrixServer × List Effect :=
  Router.handle_callback_query [dept_support] st_empty srv0 user0 "dept_support"

/-- Second, identical department selection of the C1 scenario, starting from
the state the first one produced. -/
def c1_run2 : RouterState × MatrixServer × List Effect :=
  Router.handle_callback_query [dept_support] c1_run1.1 c1_run1.2.1 user0 "dept_support"

/-- C1 is false on the code: selecting the same department twice for the same
session issues two `createRoom` calls and replaces the stored room id with a
different, fresh one — `select_department` has no idempotence short-circuit. -/
theorem C1_counterexample :
    c1_run1.1 7 = some (Session.chatting dept_support "!r0:localhost")
    ∧ c1_run2.1 7 = some (Session.chatting dept_support "!r1:localhost")
    ∧ count_create_calls (c1_run1.2.2 ++ c1_run2.2.2) = 2
    ∧ ("!r1:localhost" : String) ≠ "!r0:localhost" := by decide

/-- C1 (amended): room provisioning is not idempotent. Every invocation of
`select_department` — even for a session whose room id is already set for the
same department — unconditionally issues one fresh `createRoom` call and
overwrites the session's stored room id with the freshly returned id, so two
invocations issue two creation calls in total. -/
theorem C1_room_provisioning_not_idempotent
    (cfg : List Department) (spaces : SpaceIntegration.SpacesConfig)
    (cache : SpaceIntegration.SpaceCache) (st : RouterState) (srv : MatrixServer)
    (u : TgUser) (dept : Department) (tg : String)
    (h : srv.create_room_status = 200)
    (hc : cache "telegram" = some tg) :
    ((Router.select_department st srv u dept).1 u.id
        = some (Session.chatting dept (fresh_room_id srv))
      ∧ count_create_calls (Router.select_department st srv u dept).2.2 = 1
      ∧ ((Router.select_department st srv u dept).2.1).next_room_id = srv.next_room_id + 1)
    ∧ ((SpaceIntegration.select_department cfg spaces st cache srv u dept).1 u.id
        = some (Session.chatting dept (fresh_room_id srv))
      ∧ count_create_calls
          (SpaceIntegration.select_department cfg spaces st cache srv u dept).2.2.2 = 1
      ∧ ((SpaceIntegration.select_department cfg spaces st cache srv u dept).2.2.1).next_room_id
        = srv.next_room_id + 1) := by
  constructor
  · simp [Router.select_department, Router.create_matrix_room, h, Router.invite_to_room,
      Router.send_matrix_message, set_session, count_create_calls, bump]
  · refine ⟨?_, ?_, ?_⟩ <;>
      simp [SpaceIntegration.select_department, SpaceIntegration.create_telegram_room_in_space,
        SpaceIntegration.ensure_telegram_space_hierarchy, hc, h,
        SpaceIntegration.send_matrix_message, SpaceIntegration.invite_support_users_to_room,
        set_session, count_create_calls, bump]
    intro a ha
    obtain ⟨x, y, z, rfl⟩ := invite_loop_all_invites _ _ _ _ _ a ha
    rfl

/-- Witness for `C1_room_provisioning_not_idempotent` at a concrete input. -/
theorem C1_witness :
    srv0.create_room_status = 200
    ∧ cache_tg "telegram" = some "!space0:localhost"
    ∧ (((Router.select_department st_empty srv0 user0 dept_support).1 user0.id
          = some (Session.chatting dept_support (fresh_room_id srv0))
        ∧ count_create_calls (Router.select_department st_empty srv0 user0 dept_support).2.2 = 1
        ∧ ((Router.select_department st_empty srv0 user0 dept_support).2.1).next_room_id
          = srv0.next_room_id + 1)
      ∧ ((SpaceIntegration.select_department [dept_support] spaces0 st_empty cache_tg srv0
            user0 dept_support).1 user0.id
          = some (Session.chatting dept_support (fresh_room_id srv0))
        ∧ count_create_calls (SpaceIntegration.select_department [dept_support] spaces0
            st_empty cache_tg srv0 user0 dept_support).2.2.2 = 1
        ∧ ((SpaceIntegration.select_department [dept_support] spaces0 st_empty cache_tg srv0
            user0 dept_support).2.2.1).next_room_id = srv0.next_room_id + 1)) :=
  ⟨rfl, rfl,
    C1_room_provisioning_not_idempotent [dept_support] spaces0 cache_tg st_empty srv0 user0
      dept_support "!space0:localhost" rfl rfl⟩

/-! Claim C2: no premature relay before a department is selected. -/

/-- C2: for any user whose router session is absent or still selecting a
department, an inbound free-text message issues zero Matrix message sends and
instead re-prompts department selection; likewise, the department bot replies
with a `/start` prompt and sends nothing when the user has no session. -/
theorem C2_no_premature_relay
    (cfg : List Department) (st : RouterState) (srv : MatrixServer)
    (bst : DeptBot.BotState) (u : TgUser) (text : String)
    (hr : st u.id = none ∨ st u.id = some Session.selectingDepartment)
    (hb : bst.user_sessions u.id = none) :
    (count_send_calls (Router.handle_message cfg st srv u text).2.2 = 0
      ∧ (Router.handle_message cfg st srv u text).2.2
          = [Effect.respond (Router.welcome_message u)])
    ∧ (DeptBot.handle_message bst u text = [Effect.respond DeptBot.start_prompt]
      ∧ count_send_calls (DeptBot.handle_message bst u text) = 0) := by
  rcases hr with h | h <;>
    simp [Router.handle_message, h, Router.handle_start_command, count_send_calls,
      DeptBot.handle_message, hb]

/-- Witness for `C2_no_premature_relay` at a concrete input. -/
theorem C2_witness :
    (st_empty user0.id = none ∨ st_empty user0.id = some Session.selectingDepartment)
    ∧ bot_st0.user_sessions user0.id = none
    ∧ ((count_send_calls (Router.handle_message [dept_support] st_empty srv0 user0 "hello").2.2 = 0
        ∧ (Router.handle_message [dept_support] st_empty srv0 user0 "hello").2.2
            = [Effect.respond (Router.welcome_message user0)])
      ∧ (DeptBot.handle_message bot_st0 user0 "hello" = [Effect.respond DeptBot.start_prompt]
        ∧ count_send_calls (DeptBot.handle_message bot_st0 user0 "hello") = 0)) :=
  ⟨Or.inl rfl, rfl,
    C2_no_premature_relay [dept_support] st_empty srv0 bot_st0 user0 "hello" (Or.inl rfl) rfl⟩

/-! Claim C3: partial invite failure isolation during room provisioning. -/

/-- C3: with the channel space resolved and a healthy `createRoom`, room
provisioning succeeds with the fresh room id; an invite request is issued for
every staff identity of the department other than the bot user; neither the
provisioning result nor the set of requests issued changes when any subset of
invites fails (so one failed invite aborts nothing and blocks no later
invite); and each failed invite is reported as a logged warning. -/
theorem C3_invite_failures_isolated
    (cfg : List Department) (spaces : SpaceIntegration.SpacesConfig)
    (cache : SpaceIntegration.SpaceCache) (srv : MatrixServer) (f : String → Nat)
    (dept : Department) (u : TgUser) (tg : String)
    (hc : cache "telegram" = some tg)
    (hs : srv.create_room_status = 200) :
    (SpaceIntegration.create_telegram_room_in_space cfg spaces cache srv dept u).1
        = some (fresh_room_id srv)
    ∧ (∀ staff ∈ dept.matrix.support_users, staff ≠ dept.matrix.bot_user_id →
        Effect.inviteCall dept.matrix.homeserver (fresh_room_id srv) staff
          ∈ (SpaceIntegration.create_telegram_room_in_space cfg spaces cache srv dept u).2.1)
    ∧ (SpaceIntegration.create_telegram_room_in_space cfg spaces cache
          { srv with invite_status := f } dept u).1
        = (SpaceIntegration.create_telegram_room_in_space cfg spaces cache srv dept u).1
    ∧ (SpaceIntegration.create_telegram_room_in_space cfg spaces cache
          { srv with invite_status := f } dept u).2.1
        = (SpaceIntegration.create_telegram_room_in_space cfg spaces cache srv dept u).2.1
    ∧ (∀ staff ∈ dept.matrix.support_users, staff ≠ dept.matrix.bot_user_id →
        srv.invite_status staff ≠ 200 →
        ("Failed to invite " ++ staff ++ " to room " ++ fresh_room_id srv)
          ∈ (SpaceIntegration.invite_support_users_to_room (bump srv)
              (fresh_room_id srv) dept).2) := by
  refine ⟨?_, ?_, ?_, ?_, ?_⟩
  · simp [SpaceIntegration.create_telegram_room_in_space,
      SpaceIntegration.ensure_telegram_space_hierarchy, hc, hs]
  · intro staff hmem hne
    simp [SpaceIntegration.create_telegram_room_in_space,
      SpaceIntegration.ensure_telegram_space_hierarchy, hc, hs,
      SpaceIntegration.invite_support_users_to_room]
    exact invite_loop_mem _ _ _ _ _ staff hmem hne
  · simp [SpaceIntegration.create_telegram_room_in_space,
      SpaceIntegration.ensure_telegram_space_hierarchy, hc, hs, fresh_room_id]
  · simp [SpaceIntegration.create_telegram_room_in_space,
      SpaceIntegration.ensure_telegram_space_hierarchy, hc, hs,
      SpaceIntegration.invite_support_users_to_room, fresh_room_id, bump]
    exact invite_loop_fst_const _ _ _ _ _ _
  · intro staff hmem hne hfail
    exact invite_loop_warn_mem _ _ _ _ _ staff hmem hne hfail

/-- Witness for `C3_invite_failures_isolated`: a department with three staff
identities where the invite for the second one fails. -/
theorem C3_witness :
    cache_tg "telegram" = some "!space0:localhost"
    ∧ srv0.create_room_status = 200
    ∧ ((SpaceIntegration.create_telegram_room_in_space [dept_support] spaces0 cache_tg
          srv0 dept_support user0).1 = some (fresh_room_id srv0)
      ∧ (∀ staff ∈ dept_support.matrix.support_users,
          staff ≠ dept_support.matrix.bot_user_id →
          Effect.inviteCall dept_support.matrix.homeserver (fresh_room_id srv0) staff
            ∈ (SpaceIntegration.create_telegram_room_in_space [dept_support] spaces0 cache_tg
                srv0 dept_support user0).2.1)
      ∧ (SpaceIntegration.create_telegram_room_in_space [dept_support] spaces0 cache_tg
            { srv0 with invite_status := fun uid => if uid = "@b:localhost" then 403 else 200 }
            dept_support user0).1
          = (SpaceIntegration.create_telegram_room_in_space [dept_support] spaces0 cache_tg
              srv0 dept_support user0).1
      ∧ (SpaceIntegration.create_telegram_room_in_space [dept_support] spaces0 cache_tg
            { srv0 with invite_status := fun uid => if uid = "@b:localhost" then 403 else 200 }
            dept_support user0).2.1
          = (SpaceIntegration.create_telegram_room_in_space [dept_support] spaces0 cache_tg
              srv0 dept_support user0).2.1
      ∧ (∀ staff ∈ dept_support.matrix.support_users,
          staff ≠ dept_support.matrix.bot_user_id →
          srv0.invite_status staff ≠ 200 →
          ("Failed to invite " ++ staff ++ " to room " ++ fresh_room_id srv0)
            ∈ (SpaceIntegration.invite_support_users_to_room (bump srv0)
                (fresh_room_id srv0) dept_support).2)) :=
  ⟨rfl, rfl,
    C3_invite_failures_isolated [dept_support] spaces0 cache_tg srv0
      (fun uid => if uid = "@b:localhost" then 403 else 200)
      dept_support user0 "!space0:localhost" rfl rfl⟩

/-! Claim C4: channel-space resolution caches on success, is atomic on failure. -/

/-- C4: on a cache miss with a healthy server, resolving the Telegram space
hierarchy returns the freshly created channel-space id and caches it under
`"telegram"`; any later resolution whose cache holds an id is a pure hit,
returning the identical id with no requests issued; and when the remote
creation call fails, the error is propagated (`Except.error`, the re-raised
exception) and the cache entry is left unpopulated. -/
theorem C4_space_resolution_cached_and_atomic
    (cfg : List Department) (spaces : SpaceIntegration.SpacesConfig)
    (cache : SpaceIntegration.SpaceCache) (srv srvBad : MatrixServer)
    (d : Department) (ds : List Department) (ch : SpaceIntegration.SpaceChannelCfg)
    (hcfg : cfg = d :: ds)
    (hch : SpaceIntegration.find_channel spaces.communication_channels "telegram" = some ch)
    (hmiss : cache "telegram" = none)
    (hok : srv.create_room_status = 200)
    (hbad : srvBad.create_room_status ≠ 200) :
    ((SpaceIntegration.ensure_telegram_space_hierarchy cfg spaces cache srv).1
        = Except.ok (fresh_room_id (bump srv))
      ∧ (SpaceIntegration.ensure_telegram_space_hierarchy cfg spaces cache srv).2.2.1 "telegram"
        = some (fresh_room_id (bump srv)))
    ∧ (∀ (c : SpaceIntegration.SpaceCache) (s : MatrixServer) (sid : String),
        c "telegram" = some sid →
        SpaceIntegration.ensure_telegram_space_hierarchy cfg spaces c s
          = (Except.ok sid, [], c, s))
    ∧ ((SpaceIntegration.ensure_telegram_space_hierarchy cfg spaces cache srvBad).1
        = Except.error "Failed to create root space"
      ∧ (SpaceIntegration.ensure_telegram_space_hierarchy cfg spaces cache srvBad).2.2.1
        = cache) := by
  subst hcfg
  refine ⟨⟨?_, ?_⟩, ?_, ?_, ?_⟩
  · simp [SpaceIntegration.ensure_telegram_space_hierarchy, hmiss,
      SpaceIntegration.ensure_root_space, hok, SpaceIntegration.ensure_telegram_space,
      hch, bump]
  · simp [SpaceIntegration.ensure_telegram_space_hierarchy, hmiss,
      SpaceIntegration.ensure_root_space, hok, SpaceIntegration.ensure_telegram_space,
      hch, bump, SpaceIntegration.cache_set]
  · intro c s sid hhit
    simp [SpaceIntegration.ensure_telegram_space_hierarchy, hhit]
  · simp [SpaceIntegration.ensure_telegram_space_hierarchy, hmiss,
      SpaceIntegration.ensure_root_space, hbad]
  · simp [SpaceIntegration.ensure_telegram_space_hierarchy, hmiss,
      SpaceIntegration.ensure_root_space, hbad]

/-- Witness for `C4_space_resolution_cached_and_atomic` at a concrete input. -/
theorem C4_witness :
    ([dept_support] : List Department) = dept_support :: []
    ∧ SpaceIntegration.find_channel spaces0.communication_channels "telegram"
        = some { id := "telegram", name := "Telegram Support", topic := "Telegram conversations" }
    ∧ cache_empty "telegram" = none
    ∧ srv0.create_room_status = 200
    ∧ srv_create_fail.create_room_status ≠ 200
    ∧ (((SpaceIntegration.ensure_telegram_space_hierarchy [dept_support] spaces0 cache_empty srv0).1
          = Except.ok (fresh_room_id (bump srv0))
        ∧ (SpaceIntegration.ensure_telegram_space_hierarchy [dept_support] spaces0 cache_empty
            srv0).2.2.1 "telegram" = some (fresh_room_id (bump srv0)))
      ∧ (∀ (c : SpaceIntegration.SpaceCache) (s : MatrixServer) (sid : String),
          c "telegram" = some sid →
          SpaceIntegration.ensure_telegram_space_hierarchy [dept_support] spaces0 c s
            = (Except.ok sid, [], c, s))
      ∧ ((SpaceIntegration.ensure_telegram_space_hierarchy [dept_support] spaces0 cache_empty
            srv_create_fail).1 = Except.error "Failed to create root space"
        ∧ (SpaceIntegration.ensure_telegram_space_hierarchy [dept_support] spaces0 cache_empty
            srv_create_fail).2.2.1 = cache_empty)) :=
  ⟨rfl, rfl, rfl, rfl, by decide,
    C4_space_resolution_cached_and_atomic [dept_support] spaces0 cache_empty srv0 srv_create_fail
      dept_support []
      { id := "telegram", name := "Telegram Support", topic := "Telegram conversations" }
      rfl rfl rfl rfl (by decide)⟩

/-! Claim C5: unknown department id leaves the session unchanged. -/

/-- A session table in which user 7 is actively chatting with support. -/
def st_c5 : RouterState :=
  set_session st_empty 7 (Session.chatting dept_support "!r0:localhost")

/-- C5 is false on the code for the `/start <dept>` form of department
selection: `handle_start_command` with the unknown id `"nonexistent"` does not
show an error — it falls through to the welcome keyboard — and it mutates the
session record, resetting an actively chatting user to `selecting_department`. -/
theorem C5_counterexample :
    st_c5 7 = some (Session.chatting dept_support "!r0:localhost")
    ∧ (Router.handle_start_command [dept_support] st_c5 srv0 user0 (some "nonexistent")).1 7
        = some Session.selectingDepartment
    ∧ (Router.handle_start_command [dept_support] st_c5 srv0 user0 (some "nonexistent")).2.2
        = [Effect.respond (Router.welcome_message user0)] := by decide

/-- C5 (amended): only for callback-query department-selection events does an
unknown department id behave as claimed — the user gets a user-visible error
edit, the session table and server are returned untouched, and no Matrix HTTP
call is issued.  A `/start` command carrying an unknown department id instead
falls back to the selection menu, resetting the user's session to
`selecting_department` (still issuing no Matrix call, but mutating state and
showing no error). -/
theorem C5_unknown_department
    (cfg : List Department) (st : RouterState) (srv : MatrixServer) (u : TgUser)
    (data did : String)
    (hpre : str_starts_with data "dept_" = true)
    (hnone : get_department_by_id cfg (data.drop 5) = none)
    (hdid : get_department_by_id cfg did = none) :
    (Router.handle_callback_query cfg st srv u data
        = (st, srv, [Effect.editMsg Router.dept_not_found_message])
      ∧ (∀ e ∈ (Router.handle_callback_query cfg st srv u data).2.2,
          is_matrix_call e = false))
    ∧ (Router.handle_start_command cfg st srv u (some did)
        = (set_session st u.id Session.selectingDepartment, srv,
            [Effect.respond (Router.welcome_message u)])
      ∧ (∀ e ∈ (Router.handle_start_command cfg st srv u (some did)).2.2,
          is_matrix_call e = false)) := by
  refine ⟨⟨?_, ?_⟩, ?_, ?_⟩ <;>
    simp [Router.handle_callback_query, hpre, hnone, Router.handle_start_command, hdid,
      is_matrix_call]

/-- Witness for `C5_unknown_department` at a concrete input. -/
theorem C5_witness :
    str_starts_with "dept_nonexistent" "dept_" = true
    ∧ get_department_by_id [dept_support] ("dept_nonexistent".drop 5) = none
    ∧ get_department_by_id [dept_support] "nonexistent" = none
    ∧ ((Router.handle_callback_query [dept_support] st_c5 srv0 user0 "dept_nonexistent"
          = (st_c5, srv0, [Effect.editMsg Router.dept_not_found_message])
        ∧ (∀ e ∈ (Router.handle_callback_query [dept_support] st_c5 srv0 user0
            "dept_nonexistent").2.2, is_matrix_call e = false))
      ∧ (Router.handle_start_command [dept_support] st_c5 srv0 user0 (some "nonexistent")
          = (set_session st_c5 user0.id Session.selectingDepartment, srv0,
              [Effect.respond (Router.welcome_message user0)])
        ∧ (∀ e ∈ (Router.handle_start_command [dept_support] st_c5 srv0 user0
            (some "nonexistent")).2.2, is_matrix_call e = false))) :=
  ⟨by decide, by decide, by decide,
    C5_unknown_department [dept_support] st_c5 srv0 user0 "dept_nonexistent" "nonexistent"
      (by decide) (by decide) (by decide)⟩

/-! Claim C6: switching departments targets a fresh room; the old room goes quiet. -/

/-- C6: a user actively chatting in `roomA` who selects another department via
a callback query gets exactly one fresh `createRoom` call, the session's room
id switches to the freshly created room, a subsequent free-text message is
relayed only to the new room, and no message send in either step targets the
prior room (which is never closed — no such request even exists in the model). -/
theorem C6_department_switch
    (cfg : List Department) (st : RouterState) (srv : MatrixServer) (u : TgUser)
    (deptA deptB : Department) (roomA data msg : String)
    (hsess : st u.id = some (Session.chatting deptA roomA))
    (hpre : str_starts_with data "dept_" = true)
    (hfound : get_department_by_id cfg (data.drop 5) = some deptB)
    (hok : srv.create_room_status = 200)
    (hdistinct : roomA ≠ fresh_room_id srv) :
    ((Router.handle_callback_query cfg st srv u data).1 u.id
        = some (Session.chatting deptB (fresh_room_id srv))
      ∧ count_create_calls (Router.handle_callback_query cfg st srv u data).2.2 = 1)
    ∧ (Router.handle_message cfg (Router.handle_callback_query cfg st srv u data).1
          (Router.handle_callback_query cfg st srv u data).2.1 u msg).2.2
        = [Effect.sendMessage deptB.matrix.homeserver (fresh_room_id srv)
            (Router.relay_body u msg)]
    ∧ (∀ e ∈ (Router.handle_callback_query cfg st srv u data).2.2,
        sends_to_room roomA e = false)
    ∧ (∀ e ∈ (Router.handle_message cfg (Router.handle_callback_query cfg st srv u data).1
          (Router.handle_callback_query cfg st srv u data).2.1 u msg).2.2,
        sends_to_room roomA e = false) := by
  have hne : fresh_room_id srv ≠ roomA := fun h => hdistinct h.symm
  refine ⟨⟨?_, ?_⟩, ?_, ?_, ?_⟩ <;>
    simp [Router.handle_callback_query, hpre, hfound, Router.select_department,
      Router.create_matrix_room, hok, Router.invite_to_room, Router.send_matrix_message,
      Router.handle_message, set_session, count_create_calls, sends_to_room, hne]

/-- Witness for `C6_department_switch`: user 7 chats with support in room
`!r0`, then selects billing; the follow-up message lands in the fresh `!r1`. -/
theorem C6_witness :
    st_c5 user0.id = some (Session.chatting dept_support "!r0:localhost")
    ∧ str_starts_with "dept_billing" "dept_" = true
    ∧ get_department_by_id [dept_support, dept_billing] ("dept_billing".drop 5)
        = some dept_billing
    ∧ (bump srv0).create_room_status = 200
    ∧ ("!r0:localhost" : String) ≠ fresh_room_id (bump srv0)
    ∧ (((Router.handle_callback_query [dept_support, dept_billing] st_c5 (bump srv0) user0
            "dept_billing").1 user0.id
          = some (Session.chatting dept_billing (fresh_room_id (bump srv0)))
        ∧ count_create_calls (Router.handle_callback_query [dept_support, dept_billing] st_c5
            (bump srv0) user0 "dept_billing").2.2 = 1)
      ∧ (Router.handle_message [dept_support, dept_billing]
            (Router.handle_callback_query [dept_support, dept_billing] st_c5 (bump srv0) user0
              "dept_billing").1
            (Router.handle_callback_query [dept_support, dept_billing] st_c5 (bump srv0) user0
              "dept_billing").2.1 user0 "bye").2.2
          = [Effect.sendMessage dept_billing.matrix.homeserver (fresh_room_id (bump srv0))
              (Router.relay_body user0 "bye")]
      ∧ (∀ e ∈ (Router.handle_callback_query [dept_support, dept_billing] st_c5 (bump srv0)
            user0 "dept_billing").2.2, sends_to_room "!r0:localhost" e = false)
      ∧ (∀ e ∈ (Router.handle_message [dept_support, dept_billing]
            (Router.handle_callback_query [dept_support, dept_billing] st_c5 (bump srv0) user0
              "dept_billing").1
            (Router.handle_callback_query [dept_support, dept_billing] st_c5 (bump srv0) user0
              "dept_billing").2.1 user0 "bye").2.2,
          sends_to_room "!r0:localhost" e = false)) :=
  ⟨by decide, by decide, by decide, by decide, by decide,
    C6_department_switch [dept_support, dept_billing] st_c5 (bump srv0) user0
      dept_support dept_billing "!r0:localhost" "dept_billing" "bye"
      (by decide) (by decide) (by decide) (by decide) (by decide)⟩

/-! Claim C7: the relay reports its outcome to the caller. -/

/-- C7 is false on the code: `send_matrix_message` returns `None` on every
path, so a failing send (non-200 response) produces a return value — and even
a request trace — identical to a successful one; the failure shows up only in
the log line and is invisible to the calling Session Router. -/
theorem C7_counterexample :
    Router.send_matrix_message srv_send_fail dept_support "!r0:localhost" "hi" user0
        = Router.send_matrix_message srv0 dept_support "!r0:localhost" "hi" user0
    ∧ srv_send_fail.send_status ≠ 200
    ∧ Router.send_log srv_send_fail "!r0:localhost"
        ≠ Router.send_log srv0 "!r0:localhost" := by decide

/-- C7 (amended): the message relay does not report its outcome. Both relay
implementations return the unit value together with the issued request on
every path, independent of the server's response status; a non-2xx response
is observable only in the log line, never in the value returned to the
calling Session Router. -/
theorem C7_relay_failure_invisible (srv : MatrixServer) (dept : Department)
    (room_id message : String) (u : TgUser) :
    Router.send_matrix_message srv dept room_id message u
        = ((), [Effect.sendMessage dept.matrix.homeserver room_id
            (Router.relay_body u message)])
    ∧ Router.send_log srv room_id
        = (if srv.send_status = 200 then "Sent message to Matrix room " ++ room_id
           else "Failed to send Matrix message: " ++ toString srv.send_status)
    ∧ SpaceIntegration.send_matrix_message srv dept room_id message u
        = ((), [Effect.sendMessage dept.matrix.homeserver room_id
            (SpaceIntegration.relay_body u message)]) :=
  ⟨rfl, rfl, rfl⟩

/-! Claim C8: the conversation id is generated once and stable. -/

/-- First department selection of the C8 scenario (department bot). -/
def c8_run1 : DeptBot.BotState × List Effect :=
  DeptBot.department_callback bot_st0 user0 7 "dept_technical"

/-- Second, identical department selection of the C8 scenario. -/
def c8_run2 : DeptBot.BotState × List Effect :=
  DeptBot.department_callback c8_run1.1 user0 7 "dept_technical"

/-- C8 is false on the code: the department bot regenerates
`conversation_id` (a fresh `uuid4`-derived value, modelled by the fresh-id
generator) on every department selection, so re-selecting the same department
replaces the session's conversation id with a different one. -/
theorem C8_counterexample :
    (c8_run1.1.user_sessions 7).map (fun s => s.conversation_id) = some (DeptBot.mk_uuid 0)
    ∧ (c8_run2.1.user_sessions 7).map (fun s => s.conversation_id) = some (DeptBot.mk_uuid 1)
    ∧ DeptBot.mk_uuid 0 ≠ DeptBot.mk_uuid 1 := by decide

/-- C8 (amended): in the department-bot variant every successful department
selection stores a freshly generated conversation id and advances the
generator, so the id is not stable across re-selection; only the
space-integration variant derives a per-user stable conversation id
(`tg<userId>`) for room naming. -/
theorem C8_conversation_id_regenerated
    (st : DeptBot.BotState) (u : TgUser) (chat_id : Nat) (data : String)
    (info : DeptBot.DeptInfo)
    (h : DeptBot.dept_lookup DeptBot.bot_departments (str_replace data "dept_" "")
        = some info) :
    ((DeptBot.department_callback st u chat_id data).1.user_sessions u.id).map
        (fun s => s.conversation_id) = some (DeptBot.mk_uuid st.next_uuid)
    ∧ (DeptBot.department_callback st u chat_id data).1.next_uuid = st.next_uuid + 1
    ∧ SpaceIntegration.conversation_id u = "tg" ++ toString u.id := by
  refine ⟨?_, ?_, rfl⟩ <;> simp [DeptBot.department_callback, h]

/-- Witness for `C8_conversation_id_regenerated` at a concrete input. -/
theorem C8_witness :
    DeptBot.dept_lookup DeptBot.bot_departments (str_replace "dept_general" "dept_" "")
        = some { name := "General Inquiry"
               , description := "General questions and support"
               , matrix_users := ["@admin:localhost", "@support:localhost"]
               , space_name := "Telegram - General" }
    ∧ (((DeptBot.department_callback bot_st0 user0 7 "dept_general").1.user_sessions
          user0.id).map (fun s => s.conversation_id) = some (DeptBot.mk_uuid bot_st0.next_uuid)
      ∧ (DeptBot.department_callback bot_st0 user0 7 "dept_general").1.next_uuid
          = bot_st0.next_uuid + 1
      ∧ SpaceIntegration.conversation_id user0 = "tg" ++ toString user0.id) :=
  ⟨by decide,
    C8_conversation_id_regenerated bot_st0 user0 7 "dept_general"
      { name := "General Inquiry"
      , description := "General questions and support"
      , matrix_users := ["@admin:localhost", "@support:localhost"]
      , space_name := "Telegram - General" } (by decide)⟩

/-! Claim C9: every room-creation request is private and sets power levels. -/

/-- C9 is false on the code: the `createRoom` request issued by the
space-integration script (here: a concrete successful provisioning run)
carries no power-level state at all, so ordinary members and the relay
identity are not demoted by this request, contradicting the universally
quantified claim. -/
theorem C9_counterexample :
    Effect.createRoom "http://localhost:8008" (SpaceIntegration.room_data dept_support user0)
        ∈ (SpaceIntegration.create_telegram_room_in_space [dept_support] spaces0 cache_tg
            srv0 dept_support user0).2.1
    ∧ (SpaceIntegration.room_data dept_support user0).power_levels = none
    ∧ (SpaceIntegration.room_data dept_support user0).preset = "private_chat" := by decide

/-- C9 (amended): every conversation-room creation request is scoped private
(`preset private_chat`; the router and space-integration variants additionally
send `m.federate: false`, the bot variant `visibility: private`), but only the
department-bot variant sets power levels (admin 100, support 50, ordinary
members defaulting to 0); the router and space-integration requests carry no
power-level state. -/
theorem C9_room_privacy_and_power_levels (dept : Department) (u : TgUser)
    (session : DeptBot.BotSession) (info : DeptBot.DeptInfo) :
    (Router.room_data dept u).preset = "private_chat"
    ∧ (Router.room_data dept u).federate = some false
    ∧ (Router.room_data dept u).power_levels = none
    ∧ (SpaceIntegration.room_data dept u).preset = "private_chat"
    ∧ (SpaceIntegration.room_data dept u).federate = some false
    ∧ (SpaceIntegration.room_data dept u).power_levels = none
    ∧ (DeptBot.room_data session info).preset = "private_chat"
    ∧ (DeptBot.room_data session info).visibility = some "private"
    ∧ (DeptBot.room_data session info).power_levels = some DeptBot.bot_power_levels
    ∧ DeptBot.bot_power_levels.users = [("@admin:localhost", 100), ("@support:localhost", 50)]
    ∧ DeptBot.bot_power_levels.users_default = 0 :=
  ⟨rfl, rfl, rfl, rfl, rfl, rfl, rfl, rfl, rfl, rfl, rfl⟩

/-! Claim C10: messages starting with a slash are ignored by the message handler. -/

/-- C10: the generic message handler of both the router and the
space-integration script returns immediately on any text starting with `/`,
leaving state, cache and server untouched and emitting no effect at all —
no relay to the user's room even when chatting, and no response either. -/
theorem C10_slash_messages_ignored
    (cfg : List Department) (spaces : SpaceIntegration.SpacesConfig)
    (st : RouterState) (cache : SpaceIntegration.SpaceCache) (srv : MatrixServer)
    (u : TgUser) (text : String)
    (h : str_starts_with text "/" = true) :
    Router.message_handler cfg st srv u text = (st, srv, [])
    ∧ SpaceIntegration.message_handler cfg spaces st cache srv u text
        = (st, cache, srv, []) := by
  constructor <;> simp [Router.message_handler, SpaceIntegration.message_handler, h]

/-- Witness for `C10_slash_messages_ignored`: the user is actively chatting,
yet `/help` produces nothing. -/
theorem C10_witness :
    str_starts_with "/help" "/" = true
    ∧ (Router.message_handler [dept_support] st_c5 srv0 user0 "/help" = (st_c5, srv0, [])
      ∧ SpaceIntegration.message_handler [dept_support] spaces0 st_c5 cache_tg srv0 user0 "/help"
          = (st_c5, cache_tg, srv0, [])) :=
  ⟨by decide,
    C10_slash_messages_ignored [dept_support] spaces0 st_c5 cache_tg srv0 user0 "/help"
      (by decide)⟩

end MatrixChat
